import Mathlib

/-!
Shallow embedding of `src/assemblyline/datastore/store.py` (class `ESStore`):
the retry/backoff engine `with_retries`, the connection lifecycle (`close`,
`ping`), the model registry (`register`, `__getattr__`) and the date-math
translator (`to_pydatemath`).  Python dicts are embedded as association
lists, Python integers as `Int`, and raised exceptions as explicit
`Except`/outcome values.  The wrapped callable handed to `with_retries` is
embedded by the list of outcomes its successive invocations produce.
-/

/-- Python exceptions arising inside the embedded code paths that are not
elasticsearch errors: `KeyError` from dict lookups (`self._models[name]`,
`ret_val['updated'] += updated` on a dict without that key) and
`AttributeError` from attribute access on `None` (any `self.client.<m>()`
after `close()` has flattened the client). -/
inductive PyErr where
  | keyError
  | attributeNoneError
deriving DecidableEq, Repr

/-- Lookup `d.get(k)` / `k in d` on a Python dict embedded as an association
list in insertion order. -/
def assocGet {α : Type} (l : List (String × α)) (k : String) : Option α :=
  match l with
  | [] => none
  | (k1, v) :: rest => if k1 == k then some v else assocGet rest k

/-- Assignment `d[k] = v` on a Python dict embedded as an association list:
replaces an existing binding, otherwise appends (insertion order). -/
def assocSet {α : Type} (l : List (String × α)) (k : String) (v : α) :
    List (String × α) :=
  match l with
  | [] => [(k, v)]
  | (k1, v1) :: rest => if k1 == k then (k, v) :: rest else (k1, v1) :: assocSet rest k v

/-- The underlying `elasticsearch.Elasticsearch` client, reduced to the one
behaviour the claims exercise: what `client.ping()` returns (`Except.ok`) or
raises (`Except.error`). -/
structure Client where
  pingResult : Except PyErr Bool
deriving Repr

/-- Arguments with which `__getattr__` constructs
`ESCollection(self, name, model_class=..., validate=..., archive_alernate_dtl=...)`.
The proxy class itself lives outside this file, so only its construction
arguments are recorded; model classes are identified by numbers, with `none`
standing for Python `None`. -/
structure ESCollection where
  name : String
  model_class : Option Nat
  validate : Bool
  archive_alernate_dtl : Int
deriving DecidableEq, Repr

/-- State of an `ESStore` handle: host list, closed flag, collection cache,
model registry, validation mode and the (nullable) client reference. -/
structure ESStore where
  _hosts : List String
  _closed : Bool
  _collections : List (String × ESCollection)
  _models : List (String × Option Nat)
  validate : Bool
  archive_alernate_dtl : Int
  client : Option Client
deriving Repr

/-- Method `close`: sets `self._closed = True` and flattens `self.client` to
`None` (the source casts `None` so later uses error hard on the null client). -/
def ESStore.close (s : ESStore) : ESStore :=
  { s with _closed := true, client := none }

/-- Attribute access `self.client.<method>(...)` followed by the call: on a
`None` client this raises `AttributeError` before any network I/O happens;
otherwise the client produces the method's outcome. -/
def ESStore.clientCall {α : Type} (s : ESStore) (f : Client → Except PyErr α) :
    Except PyErr α :=
  match s.client with
  | none => Except.error PyErr.attributeNoneError
  | some c => f c

/-- Body of the `try` in `ping`: the call `self.client.ping()`. -/
def ESStore.pingAttempt (s : ESStore) : Except PyErr Bool :=
  s.clientCall (fun c => c.pingResult)

/-- Method `ping`: returns `self.client.ping()`, and `False` whenever that
raises any exception. -/
def ESStore.ping (s : ESStore) : Bool :=
  match s.pingAttempt with
  | Except.ok b => b
  | Except.error _ => false

/-- Characters admitted by the character class `[a-z0-9_]` of the registration
regex. -/
def isModelNameChar (c : Char) : Bool :=
  ('a' ≤ c && c ≤ 'z') || ('0' ≤ c && c ≤ '9') || c == '_'

/-- Python `re.Match` object as used by `register`: `string` is the string
that was passed to `re.match` (attribute `Match.string`), `matched` is the
matched text (`Match.group(0)`). -/
structure ReMatch where
  string : String
  matched : String
deriving DecidableEq, Repr

/-- Evaluation of `re.match(r'[a-z0-9_]*', name)`: the anchored-at-0 pattern
greedily matches the longest prefix of allowed characters and, being a starred
class, succeeds on every input (a zero-width match still yields a truthy match
object whose `string` attribute is the full input). -/
def re_match_name_charset (name : String) : Option ReMatch :=
  some { string := name, matched := ⟨name.data.takeWhile isModelNameChar⟩ }

/-- Errors raised directly by `ESStore` itself: `DataStoreException` for an
invalid model name. -/
inductive DataStoreErr where
  | invalidName
deriving DecidableEq, Repr

/-- Method `register`: runs `re.match(r'[a-z0-9_]*', name)`, raises
`DataStoreException` when `not name_match or name_match.string != name`, and
otherwise stores `self._models[name] = model_class`. -/
def ESStore.register (s : ESStore) (name : String) ( model_class : Option Nat) :
    Except DataStoreErr ESStore :=
  match re_match_name_charset name with
  | none => Except.error DataStoreErr.invalidName
  | some name_match =>
    if name_match.string != name then Except.error DataStoreErr.invalidName
    else Except.ok { s with _models := assocSet s._models name model_class }

/-- Construction of the collection proxy performed inside `__getattr__`. -/
def ESStore.mkCollection (s : ESStore) (name : String) (mc : Option Nat) :
    ESCollection :=
  { name := name, model_class := mc, validate := s.validate,
    archive_alernate_dtl := s.archive_alernate_dtl }

/-- Method `__getattr__` (collection access): when validation is off, a fresh
uncached proxy is built from `self._models[name]`; when validation is on, the
cache is consulted and filled.  On both paths the lookup `self._models[name]`
raises `KeyError` for an unregistered name, and since the right-hand side of
`self._collections[name] = ESCollection(...)` is evaluated before the
assignment, the cache is left unchanged in that case.  Returns the produced
value or raised error together with the post-state. -/
def ESStore.getattr (s : ESStore) (name : String) :
    Except PyErr ESCollection × ESStore :=
  if !s.validate then
    match assocGet s._models name with
    | none => (Except.error PyErr.keyError, s)
    | some mc => (Except.ok (s.mkCollection name mc), s)
  else
    match assocGet s._collections name with
    | some c => (Except.ok c, s)
    | none =>
      match assocGet s._models name with
      | none => (Except.error PyErr.keyError, s)
      | some mc =>
        (Except.ok (s.mkCollection name mc),
         { s with _collections := assocSet s._collections name (s.mkCollection name mc) })

/-- Fueled Python `str.replace(old, new)` scanner over character lists: scan
left to right, replacing each non-overlapping occurrence of `old` by `new`.
One fuel unit is spent per examined position and every step consumes at least
one input character, so fuel `s.length` suffices whenever `old` is non-empty;
`to_pydatemath` only ever calls `replace` with non-empty patterns. -/
def pyReplaceAux (old new : List Char) : Nat → List Char → List Char
  | _, [] => []
  | 0, s => s
  | fuel + 1, c :: cs =>
    if !old.isEmpty && old.isPrefixOf (c :: cs) then
      new ++ pyReplaceAux old new fuel (List.drop old.length (c :: cs))
    else
      c :: pyReplaceAux old new fuel cs

/-- Python `value.replace(old, new)` for the non-empty patterns used in
`to_pydatemath`. -/
def pyReplace (s old new : String) : String :=
  ⟨pyReplaceAux old.data new.data s.data.length s.data⟩

/-- Class attribute `DATE_FORMAT` of `ESStore`. -/
def DATE_FORMAT : List (String × String) :=
  [("NOW", "now"), ("YEAR", "y"), ("MONTH", "M"), ("WEEK", "w"), ("DAY", "d"),
   ("HOUR", "h"), ("MINUTE", "m"), ("SECOND", "s"), ("MILLISECOND", "ms"),
   ("MICROSECOND", "micros"), ("NANOSECOND", "nanos"), ("SEPARATOR", "||"),
   ("DATE_END", "Z")]

/-- Class attribute `DATEMATH_MAP` of `ESStore`. -/
def DATEMATH_MAP : List (String × String) :=
  [("NOW", "now"), ("YEAR", "y"), ("MONTH", "M"), ("WEEK", "w"), ("DAY", "d"),
   ("HOUR", "h"), ("MINUTE", "m"), ("SECOND", "s"), ("DATE_END", "Z||")]

/-- Dict lookup `D[k]` for the two date maps (every key used is present, so
the default never fires). -/
def dateKey (m : List (String × String)) (k : String) : String :=
  (assocGet m k).getD ""

/-- The `replace_list` built inside `to_pydatemath`: sources are the
`now`/`year`/.../`second` properties (reads of `DATE_FORMAT`) plus
`DATE_FORMAT['DATE_END']`, targets are the `DATEMATH_MAP` entries. -/
def replace_list : List (String × String) :=
  [(dateKey DATE_FORMAT "NOW", dateKey DATEMATH_MAP "NOW"),
   (dateKey DATE_FORMAT "YEAR", dateKey DATEMATH_MAP "YEAR"),
   (dateKey DATE_FORMAT "MONTH", dateKey DATEMATH_MAP "MONTH"),
   (dateKey DATE_FORMAT "WEEK", dateKey DATEMATH_MAP "WEEK"),
   (dateKey DATE_FORMAT "DAY", dateKey DATEMATH_MAP "DAY"),
   (dateKey DATE_FORMAT "HOUR", dateKey DATEMATH_MAP "HOUR"),
   (dateKey DATE_FORMAT "MINUTE", dateKey DATEMATH_MAP "MINUTE"),
   (dateKey DATE_FORMAT "SECOND", dateKey DATEMATH_MAP "SECOND"),
   (dateKey DATE_FORMAT "DATE_END", dateKey DATEMATH_MAP "DATE_END")]

/-- Method `to_pydatemath`: the fold `value = value.replace(*x)` over
`replace_list`. -/
def to_pydatemath (value : String) : String :=
  replace_list.foldl (fun v p => pyReplace v p.1 p.2) value

/-- Result value returned by a retried elasticsearch call: the response dict
may or may not carry integer `updated` / `deleted` entries; `payload` stands
for all of its remaining content. -/
structure ESResult where
  updated : Option Int
  deleted : Option Int
  payload : Nat
deriving DecidableEq, Repr

/-- Outcome of one invocation of the wrapped callable `func`, as observed by
the `try` of `with_retries`: either a returned result or one of the exception
classes that the `except` cascade distinguishes, each carrying exactly the
data the corresponding handler reads (`str(error)` for `NotFoundError`,
`ce.info.get('updated'/'deleted')` for `ConflictError`, the first element of
`e.args` for `TransportError`, `err.meta.status` for `ApiError`). -/
inductive Attempt where
  | success (r : ESResult)
  | notFound (msg : List Char)
  | conflict (updated deleted : Option Int)
  | connectionTimeout
  | connectionError
  | authenticationError
  | transportError (code : Int)
  | authorizationError
  | apiError (status : Int)
deriving DecidableEq, Repr

/-- Observable side effects of the retry loop, in order of occurrence:
`sleep n` is `time.sleep(min(retries, MAX_RETRY_BACKOFF))` with argument `n`,
`jitterSleep` is `time.sleep(random() * 0.1)`, and `reset` is a call to
`connection_reset()`. -/
inductive Event where
  | sleep (seconds : Nat)
  | jitterSleep
  | reset
deriving DecidableEq, Repr

/-- How `with_retries` terminates: a returned value, a re-raised original
error (carried unchanged), a `VersionConflictException`, or a plain Python
error such as the `KeyError` raised when merging counts into a result dict
that lacks the expected key. -/
inductive Outcome where
  | ok (r : ESResult)
  | raised (e : Attempt)
  | versionConflict
  | pythonError (e : PyErr)
deriving DecidableEq, Repr

/-- Class attribute `MAX_RETRY_BACKOFF` of `ESStore`. -/
def MAX_RETRY_BACKOFF : Nat := 10

/-- Evaluation of `kwargs.get('index', '').upper()`. -/
def index_name (index : String) : String :=
  ⟨index.data.map Char.toUpper⟩

/-- Python substring test `needle in haystack` on character lists. -/
def containsSub : List Char → List Char → Bool
  | [], ndl => ndl.isEmpty
  | c :: t, ndl => ndl.isPrefixOf (c :: t) || containsSub t ndl

/-- The message fragment `with_retries` looks for in a `NotFoundError`. -/
def lostContextMsg : List Char :=
  "No search context found".data

/-- The merge performed on success in `with_retries`:
`if updated: ret_val['updated'] += updated` and likewise for `deleted`; the
augmented assignment raises `KeyError` when the key is missing. -/
def mergeAccumulated (r : ESResult) (updated deleted : Int) : Except PyErr ESResult :=
  match (if updated == 0 then Except.ok r
         else match r.updated with
              | none => Except.error PyErr.keyError
              | some x => Except.ok { r with updated := some (x + updated) }) with
  | Except.error e => Except.error e
  | Except.ok r1 =>
    if deleted == 0 then Except.ok r1
    else match r1.deleted with
         | none => Except.error PyErr.keyError
         | some x => Except.ok { r1 with deleted := some (x + deleted) }

/-- Result of one pass through the `try`/`except` cascade of `with_retries`
for the loop state `(retries, updated, deleted)`: either the loop terminates
(`done`) or continues with an updated state (`next`). -/
inductive StepResult where
  | done (events : List Event) (out : Outcome)
  | next (events : List Event) (retries : Nat) (updated deleted : Int)
deriving DecidableEq, Repr

/-- One iteration of `with_retries`: the `try` body followed by the `except`
cascade, translated clause by clause from the source. -/
def with_retries_step (raise_conflicts : Bool) (index : String) (a : Attempt)
    (retries : Nat) (updated deleted : Int) : StepResult :=
  match a with
  | Attempt.success r =>
    StepResult.done [] (match mergeAccumulated r updated deleted with
      | Except.ok r1 => Outcome.ok r1
      | Except.error e => Outcome.pythonError e)
  | Attempt.notFound msg =>
    if index_name index == "" || !containsSub msg lostContextMsg then
      StepResult.done [] (Outcome.raised (Attempt.notFound msg))
    else
      StepResult.next [Event.sleep (min retries MAX_RETRY_BACKOFF)]
        (retries + 1) updated deleted
  | Attempt.conflict cu cd =>
    if raise_conflicts then
      StepResult.done [Event.jitterSleep] Outcome.versionConflict
    else
      StepResult.next [Event.sleep (min retries MAX_RETRY_BACKOFF)]
        (retries + 1) (updated + cu.getD 0) (deleted + cd.getD 0)
  | Attempt.connectionTimeout =>
    StepResult.next [Event.sleep (min retries MAX_RETRY_BACKOFF), Event.reset]
      (retries + 1) updated deleted
  | Attempt.connectionError =>
    StepResult.next [Event.sleep (min retries MAX_RETRY_BACKOFF), Event.reset]
      (retries + 1) updated deleted
  | Attempt.authenticationError =>
    StepResult.next [Event.sleep (min retries MAX_RETRY_BACKOFF), Event.reset]
      (retries + 1) updated deleted
  | Attempt.transportError code =>
    if index_name index == "" || !(code == 503 || code == 429 || code == 403) then
      StepResult.done [] (Outcome.raised (Attempt.transportError code))
    else
      StepResult.next [Event.sleep (min retries MAX_RETRY_BACKOFF)]
        (retries + 1) updated deleted
  | Attempt.authorizationError =>
    if index_name index == "" then
      StepResult.done [] (Outcome.raised Attempt.authorizationError)
    else
      StepResult.next [Event.sleep (min retries MAX_RETRY_BACKOFF)]
        (retries + 1) updated deleted
  | Attempt.apiError status =>
    if status == 429 || (status == 503 && !(index_name index == ""))
        || (status == 403 && !(index_name index == "")) then
      StepResult.next [Event.sleep (min retries MAX_RETRY_BACKOFF)]
        (retries + 1) updated deleted
    else
      StepResult.done [] (Outcome.raised (Attempt.apiError status))

/-- The `while True` loop of `with_retries`, driven by the list of successive
attempt outcomes; `none` means the list was exhausted with the loop still
running.  The events of all iterations are collected in order. -/
def with_retries_loop (raise_conflicts : Bool) (index : String) :
    List Attempt → Nat → Int → Int → Option (List Event × Outcome)
  | [], _, _, _ => none
  | a :: rest, retries, updated, deleted =>
    match with_retries_step raise_conflicts index a retries updated deleted with
    | StepResult.done evs out => some (evs, out)
    | StepResult.next evs retries1 updated1 deleted1 =>
      match with_retries_loop raise_conflicts index rest retries1 updated1 deleted1 with
      | none => none
      | some (evs1, out) => some (evs ++ evs1, out)

/-- Method `with_retries` with its initial state `retries = 0`, `updated = 0`,
`deleted = 0`; `index` is the value of `kwargs.get('index', '')`. -/
def with_retries (raise_conflicts : Bool) (index : String)
    (attempts : List Attempt) : Option (List Event × Outcome) :=
  with_retries_loop raise_conflicts index attempts 0 0 0

/-- Backoff sleeps requested by one step of the loop, when the step retries. -/
def backoffSleeps : StepResult → List Nat
  | StepResult.done _ _ => []
  | StepResult.next evs _ _ _ =>
    evs.filterMap (fun e => match e with
      | Event.sleep n => some n
      | _ => none)

/-- Failures that match none of the retry conditions of the `except` cascade:
a `NotFoundError` without a named index or without the lost-search-context
message, a legacy `TransportError` without a named index or with a code other
than 503/429/403, an `AuthorizationException` without a named index, and an
`ApiError` outside 429 / 503-with-index / 403-with-index. -/
def unrecognizedFailure (index : String) : Attempt → Bool
  | Attempt.notFound msg => index_name index == "" || !containsSub msg lostContextMsg
  | Attempt.transportError code =>
      index_name index == "" || !(code == 503 || code == 429 || code == 403)
  | Attempt.authorizationError => index_name index == ""
  | Attempt.apiError status =>
      !(status == 429 || (status == 503 && !(index_name index == ""))
        || (status == 403 && !(index_name index == "")))
  | _ => false

/-- Concrete freshly connected store used to instantiate theorems with
hypotheses on concrete inputs. -/
def demoStore : ESStore :=
  { _hosts := ["http://elastic:9200"], _closed := false, _collections := [],
    _models := [], validate := true, archive_alernate_dtl := 0,
    client := some { pingResult := Except.ok true } }

/-- The same store with validation disabled. -/
def demoStoreNoValidate : ESStore :=
  { demoStore with validate := false }

/-- Helper: merging zero accumulated counts returns the result untouched. -/
theorem mergeAccumulated_zero (r : ESResult) : mergeAccumulated r 0 0 = Except.ok r := rfl

/-- C5: for every operation whose first attempt under `with_retries` succeeds,
the returned value is the underlying operation's result unmodified: no
`updated` or `deleted` accumulation is applied when zero conflicts occurred. -/
theorem with_retries_immediate_success (raise_conflicts : Bool) (index : String)
    (r : ESResult) (rest : List Attempt) :
    with_retries raise_conflicts index (Attempt.success r :: rest)
      = some ([], Outcome.ok r) := by
  simp [with_retries, with_retries_loop, with_retries_step, mergeAccumulated_zero]

/-- C3: under `raise_conflicts = true`, a version-conflict attempt makes the
call fail with `VersionConflictException` after a single randomized jitter
sleep, and the operation is never re-invoked (the remaining attempts are
arbitrary and unused, and the jitter sleep is the only event). -/
theorem with_retries_strict_conflict_raises (index : String) (cu cd : Option Int)
    (rest : List Attempt) :
    with_retries true index (Attempt.conflict cu cd :: rest)
      = some ([Event.jitterSleep], Outcome.versionConflict) := by
  simp [with_retries, with_retries_loop, with_retries_step]

/-- C2: an operation failing with a connection timeout on its first two
attempts and succeeding on the third produces exactly two backoff sleeps of
0 then 1 seconds, each timeout followed by a connection reset, and returns
the third attempt's raw output; and in general any retrying step sleeps
exactly `min(retries, MAX_RETRY_BACKOFF)` seconds (linear, capped). -/
theorem with_retries_timeout_scenario_and_backoff (raise_conflicts : Bool)
    (index : String) (r : ESResult) (rest : List Attempt) (a : Attempt)
    (retries : Nat) (updated deleted : Int) :
    with_retries raise_conflicts index
        (Attempt.connectionTimeout :: Attempt.connectionTimeout ::
          Attempt.success r :: rest)
      = some ([Event.sleep 0, Event.reset, Event.sleep 1, Event.reset], Outcome.ok r)
    ∧ (backoffSleeps (with_retries_step raise_conflicts index a retries updated deleted)).all
        (fun n => n == min retries MAX_RETRY_BACKOFF) = true := by
  constructor
  · simp [with_retries, with_retries_loop, with_retries_step, mergeAccumulated_zero,
      MAX_RETRY_BACKOFF]
  · cases a <;> simp only [with_retries_step] <;> (try split) <;> simp [backoffSleeps]

/-- C4: every failure matching none of the recognized transient or conflict
patterns is re-raised unchanged and immediately: no sleep, no connection
reset, no retry (the remaining attempts are arbitrary and unused). -/
theorem with_retries_unrecognized_reraised (raise_conflicts : Bool)
    (index : String) (a : Attempt) (rest : List Attempt)
    (h : unrecognizedFailure index a = true) :
    with_retries raise_conflicts index (a :: rest)
      = some ([], Outcome.raised a) := by
  cases a <;> simp only [unrecognizedFailure] at h <;>
    first
    | exact absurd h (by decide)
    | (simp only [with_retries, with_retries_loop, with_retries_step, h]; simp; done)
    | (rw [Bool.not_eq_true'] at h;
       simp only [with_retries, with_retries_loop, with_retries_step, h]; simp)

/-- Witness for C4 at a legacy transport error with code 500 and no index. -/
theorem with_retries_unrecognized_reraised_witness :
    unrecognizedFailure "" (Attempt.transportError 500) = true
    ∧ with_retries false "" [Attempt.transportError 500]
        = some ([], Outcome.raised (Attempt.transportError 500)) :=
  ⟨by decide,
   with_retries_unrecognized_reraised false "" (Attempt.transportError 500) [] (by decide)⟩

/-- C8: `close()` sets the closed flag, nulls the client reference (so the
invariant that the connection is non-null iff the handle is not closed holds
of the resulting state), and any subsequent client call on the closed handle
fails referencing the null connection, without the call ever being dispatched. -/
theorem close_flattens_client (s : ESStore) {α : Type}
    (f : Client → Except PyErr α) :
    (s.close)._closed = true ∧ (s.close).client = none
    ∧ ((s.close).client ≠ none ↔ (s.close)._closed = false)
    ∧ (s.close).clientCall f = Except.error PyErr.attributeNoneError := by
  simp [ESStore.close, ESStore.clientCall]

/-- C9: `ping` returns a plain boolean (its type is `Bool`, so it cannot
throw) and returns `false` whenever the underlying `self.client.ping()` call
raises, including on a closed handle whose client is null. -/
theorem ping_false_on_failure (s : ESStore) (e : PyErr)
    (h : s.pingAttempt = Except.error e) : s.ping = false := by
  simp [ESStore.ping, h]

/-- Witness for C9 on a freshly closed concrete store. -/
theorem ping_false_on_failure_witness :
    (demoStore.close).pingAttempt = Except.error PyErr.attributeNoneError
    ∧ (demoStore.close).ping = false :=
  ⟨rfl, ping_false_on_failure demoStore.close PyErr.attributeNoneError rfl⟩

/-- C6 (code bug): `register` accepts the name `"Bad-Name!"` even though it
contains characters outside `[a-z0-9_]`, storing the schema under it, because
the guard compares `Match.string` — which is always the original input — to
`name`; the comparison never fails, so `DataStoreException` is unreachable. -/
theorem register_accepts_invalid_name :
    ("Bad-Name!".data.all isModelNameChar = false)
    ∧ ESStore.register demoStore "Bad-Name!" (some 7)
        = Except.ok { demoStore with _models := [("Bad-Name!", some 7)] } :=
  ⟨by decide, rfl⟩

/-- C10: for a name absent from the model registry (and hence, by the
cache-subset invariant, from the collection cache), collection access raises
`KeyError` from the `self._models[name]` lookup in both validation modes; no
proxy is constructed and the cache is left unchanged. -/
theorem getattr_unregistered_keyerror (s : ESStore) (name : String)
    (hinv : ∀ k, (assocGet s._collections k).isSome = true →
      (assocGet s._models k).isSome = true)
    (hm : assocGet s._models name = none) :
    s.getattr name = (Except.error PyErr.keyError, s) := by
  have hc : assocGet s._collections name = none := by
    cases hcc : assocGet s._collections name with
    | none => rfl
    | some c =>
      have hx := hinv name (by simp [hcc])
      rw [hm] at hx
      simp at hx
  by_cases hv : s.validate <;> simp [ESStore.getattr, hv, hm, hc]

/-- Witness for C10 on concrete stores in both validation modes. -/
theorem getattr_unregistered_keyerror_witness :
    demoStore.getattr "submission" = (Except.error PyErr.keyError, demoStore)
    ∧ demoStoreNoValidate.getattr "submission"
        = (Except.error PyErr.keyError, demoStoreNoValidate) :=
  ⟨getattr_unregistered_keyerror demoStore "submission"
      (fun k h => by simp [demoStore, assocGet] at h) rfl,
   getattr_unregistered_keyerror demoStoreNoValidate "submission"
      (fun k h => by simp [demoStoreNoValidate, demoStore, assocGet] at h) rfl⟩

/-- Helper: replacing a pattern by itself never changes the scanned string. -/
theorem pyReplaceAux_self (old : List Char) :
    ∀ (fuel : Nat) (s : List Char), pyReplaceAux old old fuel s = s := by
  intro fuel
  induction fuel with
  | zero =>
    intro s
    cases s <;> rfl
  | succ fuel ih =>
    intro s
    cases s with
    | nil => rfl
    | cons c cs =>
      by_cases h : (!old.isEmpty && old.isPrefixOf (c :: cs)) = true
      · have hpre : old <+: (c :: cs) :=
          List.isPrefixOf_iff_prefix.mp ((Bool.and_eq_true _ _).mp h).2
        obtain ⟨t, ht⟩ := hpre
        simp only [pyReplaceAux, h, if_true]
        rw [← ht, List.drop_left, ih]
      · simp [pyReplaceAux, h, ih]

/-- Helper: replacing a single character that does not occur in the string
leaves it unchanged. -/
theorem pyReplaceAux_single_not_mem (a : Char) (new : List Char) :
    ∀ (fuel : Nat) (s : List Char), a ∉ s → pyReplaceAux [a] new fuel s = s := by
  intro fuel
  induction fuel with
  | zero =>
    intro s _
    cases s <;> rfl
  | succ fuel ih =>
    intro s hs
    cases s with
    | nil => rfl
    | cons c cs =>
      have hac : ¬(a == c) = true := by
        simp only [beq_iff_eq]
        intro he
        exact hs (he ▸ List.mem_cons_self c cs)
      have hcond : (!([a].isEmpty) && [a].isPrefixOf (c :: cs)) = false := by
        simp [List.isPrefixOf, hac]
      simp only [pyReplaceAux, hcond, Bool.false_eq_true, if_false]
      rw [ih cs (fun hm => hs (List.mem_cons_of_mem c hm))]

/-- Helper: `str.replace` with identical pattern and replacement is the
identity. -/
theorem pyReplace_self (s old : String) : pyReplace s old old = s := by
  rw [pyReplace, pyReplaceAux_self]

/-- Helper: a string without the end-of-range marker is untouched by the
final replacement of `to_pydatemath`. -/
theorem pyReplace_dateend (s : String) (h : 'Z' ∉ s.data) :
    pyReplace s "Z" "Z||" = s := by
  show (⟨pyReplaceAux ['Z'] "Z||".data s.data.length s.data⟩ : String) = s
  rw [pyReplaceAux_single_not_mem 'Z' "Z||".data s.data.length s.data h]

/-- Helper: `to_pydatemath` written as the literal chain of `replace` calls
(the dict lookups evaluated). -/
theorem to_pydatemath_unfold (value : String) :
    to_pydatemath value =
      pyReplace (pyReplace (pyReplace (pyReplace (pyReplace (pyReplace (pyReplace
        (pyReplace (pyReplace value "now" "now") "y" "y") "M" "M") "w" "w")
          "d" "d") "h" "h") "m" "m") "s" "s") "Z" "Z||" := rfl

/-- Helper: every expression without the end-of-range marker is a fixed point
of `to_pydatemath`, because the first eight substitutions of `replace_list`
map each token to itself and only `DATE_END` rewrites to new text. -/
theorem to_pydatemath_fix (e : String) (h : 'Z' ∉ e.data) :
    to_pydatemath e = e := by
  rw [to_pydatemath_unfold]
  simp only [pyReplace_self]
  exact pyReplace_dateend e h

/-- C7 counterexample: the translator is not idempotent on the end-of-range
marker it owns: translating `"Z"` yields `"Z||"`, and translating that output
again yields `"Z||||"`. -/
theorem to_pydatemath_not_idempotent_on_dateend :
    to_pydatemath (to_pydatemath "Z") ≠ to_pydatemath "Z" := by decide

/-- C7 (amended): `to_pydatemath` is a pure function and is idempotent on
every expression that does not contain the end-of-range marker `Z`: all other
symbolic tokens it owns are mapped to themselves, so a second application
changes nothing. -/
theorem to_pydatemath_idempotent_without_dateend (e : String)
    (h : 'Z' ∉ e.data) :
    to_pydatemath (to_pydatemath e) = to_pydatemath e := by
  rw [to_pydatemath_fix e h, to_pydatemath_fix e h]

/-- Witness for the amended C7 on a concrete date-math expression. -/
theorem to_pydatemath_idempotent_without_dateend_witness :
    'Z' ∉ "now-1d/d".data
    ∧ to_pydatemath (to_pydatemath "now-1d/d") = to_pydatemath "now-1d/d" :=
  ⟨by decide, to_pydatemath_idempotent_without_dateend "now-1d/d" (by decide)⟩

/-- Helper: merging accumulated counts into a result that carries both keys
adds them onto the existing values (whether or not they are zero). -/
theorem mergeAccumulated_some (r : ESResult) (ru rd u d : Int)
    (hu : r.updated = some ru) (hd : r.deleted = some rd) :
    mergeAccumulated r u d
      = Except.ok { r with updated := some (ru + u), deleted := some (rd + d) } := by
  obtain ⟨u0, d0, p0⟩ := r
  simp only at hu hd
  subst hu
  subst hd
  by_cases h1 : u = 0 <;> by_cases h2 : d = 0 <;>
    simp [mergeAccumulated, h1, h2]

/-- Helper: running the loop on a block of lenient conflicts followed by a
success adds the sum of the reported counts onto the accumulators and merges
everything into the final result. -/
theorem with_retries_loop_lenient_conflicts (index : String) (r : ESResult)
    (ru rd : Int) (hu : r.updated = some ru) (hd : r.deleted = some rd) :
    ∀ (conflicts : List (Int × Int)) (retries : Nat) (u d : Int),
    ∃ evs, with_retries_loop false index
        (conflicts.map (fun p => Attempt.conflict (some p.1) (some p.2))
          ++ [Attempt.success r]) retries u d
      = some (evs, Outcome.ok
          { r with updated := some (ru + u + (conflicts.map Prod.fst).sum),
                   deleted := some (rd + d + (conflicts.map Prod.snd).sum) }) := by
  intro conflicts
  induction conflicts with
  | nil =>
    intro retries u d
    refine ⟨[], ?_⟩
    simp [with_retries_loop, with_retries_step,
      mergeAccumulated_some r ru rd u d hu hd]
  | cons p cs ih =>
    intro retries u d
    obtain ⟨cu, cd⟩ := p
    obtain ⟨evs, he⟩ := ih (retries + 1) (u + cu) (d + cd)
    refine ⟨Event.sleep (min retries MAX_RETRY_BACKOFF) :: evs, ?_⟩
    have ha1 : ru + (u + cu) + (cs.map Prod.fst).sum
        = ru + u + (cu + (cs.map Prod.fst).sum) := by ring
    have ha2 : rd + (d + cd) + (cs.map Prod.snd).sum
        = rd + d + (cd + (cs.map Prod.snd).sum) := by ring
    rw [ha1, ha2] at he
    simp [with_retries_loop, with_retries_step, he]

/-- C1: under `raise_conflicts = false`, when the attempts raise any number of
version conflicts (each reporting partial counts) before an attempt succeeds
with a result carrying `updated` and `deleted` entries, the returned value is
the final result with its `updated` entry increased by the sum of the
conflicts' reported `updated` counts and its `deleted` entry increased by the
sum of their reported `deleted` counts. -/
theorem with_retries_lenient_conflicts_merge (index : String)
    (conflicts : List (Int × Int)) (r : ESResult) (ru rd : Int)
    (hu : r.updated = some ru) (hd : r.deleted = some rd) :
    ∃ evs, with_retries false index
        (conflicts.map (fun p => Attempt.conflict (some p.1) (some p.2))
          ++ [Attempt.success r])
      = some (evs, Outcome.ok
          { r with updated := some (ru + (conflicts.map Prod.fst).sum),
                   deleted := some (rd + (conflicts.map Prod.snd).sum) }) := by
  obtain ⟨evs, he⟩ :=
    with_retries_loop_lenient_conflicts index r ru rd hu hd conflicts 0 0 0
  simp only [add_zero] at he
  exact ⟨evs, he⟩

/-- Witness for C1: three conflicts each reporting `updated = 1`, then a
success whose own result has `updated = 2`, yield `updated = 5`. -/
theorem with_retries_lenient_conflicts_merge_witness :
    (⟨some 2, some 5, 0⟩ : ESResult).updated = some 2
    ∧ (⟨some 2, some 5, 0⟩ : ESResult).deleted = some 5
    ∧ ∃ evs, with_retries false ""
        ([((1 : Int), (0 : Int)), (1, 0), (1, 0)].map
            (fun p => Attempt.conflict (some p.1) (some p.2))
          ++ [Attempt.success ⟨some 2, some 5, 0⟩])
      = some (evs, Outcome.ok ⟨some 5, some 5, 0⟩) := by
  refine ⟨rfl, rfl, ?_⟩
  obtain ⟨evs, he⟩ := with_retries_lenient_conflicts_merge ""
    [(1, 0), (1, 0), (1, 0)] ⟨some 2, some 5, 0⟩ 2 5 rfl rfl
  exact ⟨evs, he⟩
